import Mathlib

/-!
# Verification of the automated reminder system

Shallow embedding of the two source scripts of the repository,
`scripts/discord_notifier.py` (broadcast variant) and
`scripts/mail_scheduler.py` (per-recipient email variant), together with
proofs about their reminder evaluation, deduplication and loop behaviour.

Modelling conventions:
* instants are integers (seconds); `target` is the parsed event instant and
  `now` the tick instant, so `seconds_until = target - now`;
* the result of `datetime.strptime` is modelled by the field `target :
  Option Int` of a row; `none` models a `ValueError` (caught per row);
* the dedup ledger (the Python set `sent_reminders`) is a `List String`
  threaded through every step, with insertion at the head;
* the transport (a Discord `channel.send` or an SMTP `send_message`) is an
  oracle `String → Bool` giving the outcome of each attempt; both source
  send helpers catch every transport exception internally, which is why the
  oracle result is recorded but never inspected by the evaluator;
* file contents are lists of characters; `readlines` and `str.strip` are
  modelled character by character.
-/

/-- A row of the `classes` table (columns used by the two scripts).
`target` models the instant produced by `datetime.strptime(date + time)`;
`none` models the `ValueError` raised on malformed data. -/
structure ClassRow where
  course : String
  batchName : String
  year : String
  mode : String
  sessionName : String
  date : String
  time : String
  target : Option Int
deriving DecidableEq

/-- A row of the `assignments` table. `target` models the instant produced
by `datetime.strptime` of the (possibly time-defaulted) due string. -/
structure AssignRow where
  course : String
  batchName : String
  year : String
  mode : String
  subject : String
  dueDate : String
  target : Option Int
deriving DecidableEq

/-- A row of the `students` table, as selected by `get_students`. -/
structure Student where
  name : String
  email : String
  course : String
  batchName : String
  year : String
  mode : String
deriving DecidableEq

/-- Drop leading whitespace, as `str.strip` does on the left. -/
def trimLeftChars (l : List Char) : List Char :=
  l.dropWhile fun c => c.isWhitespace

/-- Drop trailing whitespace, as `str.strip` does on the right. -/
def trimRightChars (l : List Char) : List Char :=
  (l.reverse.dropWhile fun c => c.isWhitespace).reverse

/-- Model of Python `str.strip()` on a list of characters. -/
def stripChars (l : List Char) : List Char :=
  trimLeftChars (trimRightChars l)

/-- Model of Python `str.strip()` on strings (whitespace removed from both
ends), working on the character list. -/
def pyStrip (s : String) : String :=
  ⟨stripChars s.data⟩

/-- Model of Python `str.lower()` on strings (the data of this system is
ASCII), working on the character list. -/
def pyLower (s : String) : String :=
  ⟨s.data.map Char.toLower⟩

/-- Common part of the two Discord class keys:
`f"class-{class_course}-{batch}-{class_name}-{class_date}"`. -/
def discordClassKeyBase (r : ClassRow) : String :=
  "class-" ++ r.course ++ "-" ++ r.batchName ++ "-" ++ r.sessionName ++ "-" ++ r.date

/-- Discord 24 hour class key (`discord_notifier.py`, line 101). -/
def discordKey24 (r : ClassRow) : String :=
  discordClassKeyBase r ++ "-24hr"

/-- Discord 1 hour class key (`discord_notifier.py`, line 102). -/
def discordKey1 (r : ClassRow) : String :=
  discordClassKeyBase r ++ "-1hr"

/-- Common part of the two Discord assignment keys:
`f"assign-{course}-{batch}-{subject}-{due_date_str}"`. -/
def discordAssignKeyBase (r : AssignRow) : String :=
  "assign-" ++ r.course ++ "-" ++ r.batchName ++ "-" ++ r.subject ++ "-" ++ r.dueDate

/-- Discord 24 hour assignment key (`discord_notifier.py`, line 151). -/
def discordAssignKey24 (r : AssignRow) : String :=
  discordAssignKeyBase r ++ "-24hr"

/-- Discord 1 hour assignment key (`discord_notifier.py`, line 152). -/
def discordAssignKey1 (r : AssignRow) : String :=
  discordAssignKeyBase r ++ "-1hr"

/-- Mail class key (`mail_scheduler.py`, line 100):
`f"class-{course}-{batch_name}-{year}-{mode}-{session_name}-{hours_before}"`,
where `mode` was stripped at row extraction (line 88). -/
def mailClassKey (r : ClassRow) (hoursBefore : Nat) : String :=
  "class-" ++ r.course ++ "-" ++ r.batchName ++ "-" ++ r.year ++ "-" ++ (pyStrip r.mode)
    ++ "-" ++ r.sessionName ++ "-" ++ toString hoursBefore

/-- Mail assignment key (`mail_scheduler.py`, line 154). -/
def mailAssignKey (r : AssignRow) (hoursBefore : Nat) : String :=
  "assignment-" ++ r.course ++ "-" ++ r.batchName ++ "-" ++ r.year ++ "-" ++ (pyStrip r.mode)
    ++ "-" ++ r.subject ++ "-" ++ toString hoursBefore

/-- Output of a Discord evaluation step: the send attempts issued (dedup key
of the message, transport outcome), the dedup keys dispatched, and the
resulting ledger. -/
structure DOut where
  sends : List (String × Bool)
  fired : List String
  ledger : List String
deriving DecidableEq

/-- Output of a mail evaluation step: the emails issued (recipient address,
dedup key, transport outcome), the dedup keys dispatched, and the resulting
ledger. -/
structure MOut where
  sends : List (String × String × Bool)
  fired : List String
  ledger : List String
deriving DecidableEq

/-- One class row of the Discord evaluator (`discord_notifier.py`, lines
88-131): parse the target (failure is caught per row), then the 24 hour
branch and the 1 hour branch chained by `elif`, each guarded by the closed
window `0 <= seconds_until - h <= 600` and absence of the key from the
ledger. -/
def discordProcessRow (oracle : String → Bool) (now : Int) (sent : List String)
    (r : ClassRow) : DOut :=
  match r.target with
  | none => ⟨[], [], sent⟩
  | some tgt =>
    let su := tgt - now
    let k24 := discordKey24 r
    let k1 := discordKey1 r
    if 0 ≤ su - 86400 ∧ su - 86400 ≤ 600 ∧ k24 ∉ sent then
      ⟨[(k24, oracle k24)], [k24], k24 :: sent⟩
    else if 0 ≤ su - 3600 ∧ su - 3600 ≤ 600 ∧ k1 ∉ sent then
      ⟨[(k1, oracle k1)], [k1], k1 :: sent⟩
    else ⟨[], [], sent⟩

/-- The Discord evaluator over the whole `classes` snapshot, threading the
ledger row by row. -/
def discordProcessClasses (oracle : String → Bool) (now : Int) (sent : List String) :
    List ClassRow → DOut
  | [] => ⟨[], [], sent⟩
  | r :: rest =>
    let o := discordProcessRow oracle now sent r
    let os := discordProcessClasses oracle now o.ledger rest
    ⟨o.sends ++ os.sends, o.fired ++ os.fired, os.ledger⟩

/-- One assignment row of the Discord evaluator (`discord_notifier.py`,
lines 136-181): skip rows whose due date is empty or the string `nan`,
parse (failure caught per row), then the same `elif` chained windows. -/
def discordProcessAssignRow (oracle : String → Bool) (now : Int) (sent : List String)
    (r : AssignRow) : DOut :=
  if r.dueDate = "" ∨ pyLower r.dueDate = "nan" then ⟨[], [], sent⟩
  else
    match r.target with
    | none => ⟨[], [], sent⟩
    | some tgt =>
      let su := tgt - now
      let k24 := discordAssignKey24 r
      let k1 := discordAssignKey1 r
      if 0 ≤ su - 86400 ∧ su - 86400 ≤ 600 ∧ k24 ∉ sent then
        ⟨[(k24, oracle k24)], [k24], k24 :: sent⟩
      else if 0 ≤ su - 3600 ∧ su - 3600 ≤ 600 ∧ k1 ∉ sent then
        ⟨[(k1, oracle k1)], [k1], k1 :: sent⟩
      else ⟨[], [], sent⟩

/-- The Discord evaluator over the whole `assignments` snapshot. -/
def discordProcessAssigns (oracle : String → Bool) (now : Int) (sent : List String) :
    List AssignRow → DOut
  | [] => ⟨[], [], sent⟩
  | r :: rest =>
    let o := discordProcessAssignRow oracle now sent r
    let os := discordProcessAssigns oracle now o.ledger rest
    ⟨o.sends ++ os.sends, o.fired ++ os.fired, os.ledger⟩

/-- The collaborators of one Discord tick: the two database reads (either of
which may raise, for instance when the store is unreachable) and the ledger
persistence `save_sent_log` (which may raise on an I/O failure). -/
structure DiscordTickEnv where
  now : Int
  classesRead : Except String (List ClassRow)
  assignmentsRead : Except String (List AssignRow)
  saveOutcome : Except String Unit

/-- One iteration of the `while not bot.is_closed()` loop of
`check_and_send_reminders`. The second component records whether an
exception escaped the iteration: the per-row handlers catch row errors, but
a raise inside `get_upcoming_classes`, `get_upcoming_assignments` or
`save_sent_log` is uncaught. State already accumulated before the raise
persists, since the ledger is a global set. -/
def discordTickRun (oracle : String → Bool) (env : DiscordTickEnv)
    (sent : List String) : DOut × Bool :=
  match env.classesRead with
  | .error _ => (⟨[], [], sent⟩, true)
  | .ok classRows =>
    let o1 := discordProcessClasses oracle env.now sent classRows
    match env.assignmentsRead with
    | .error _ => (o1, true)
    | .ok assignRows =>
      let o2 := discordProcessAssigns oracle env.now o1.ledger assignRows
      let o : DOut := ⟨o1.sends ++ o2.sends, o1.fired ++ o2.fired, o2.ledger⟩
      match env.saveOutcome with
      | .error _ => (o, true)
      | .ok _ => (o, false)

/-- Cumulative result of a scheduler loop: number of iterations that ran,
all dedup keys dispatched, and the final ledger. -/
structure LoopOut where
  ticks : Nat
  fired : List String
  ledger : List String
deriving DecidableEq

/-- The Discord reminder loop (`check_and_send_reminders`), driven by a
finite schedule of tick environments. An exception escaping an iteration
kills the asyncio task: the failing iteration counts as run, and no later
iteration runs. -/
def check_and_send_reminders (oracle : String → Bool) :
    List DiscordTickEnv → List String → LoopOut
  | [], sent => ⟨0, [], sent⟩
  | env :: rest, sent =>
    let (o, crashed) := discordTickRun oracle env sent
    if crashed then ⟨1, o.fired, o.ledger⟩
    else
      let os := check_and_send_reminders oracle rest o.ledger
      ⟨os.ticks + 1, o.fired ++ os.fired, os.ledger⟩

/-- Recipient selection of `mail_scheduler.py` (lines 103-108 and 157-162):
course, batch and mode are compared lowercased, year with plain equality. -/
def matchStudents (students : List Student) (course batchName year mode : String) :
    List Student :=
  students.filter fun s =>
    pyLower s.course == pyLower course &&
    pyLower s.batchName == pyLower batchName &&
    s.year == year &&
    pyLower s.mode == pyLower mode

/-- One threshold of one class row of the mail evaluator
(`mail_scheduler.py`, lines 98-128): half-open window
`0 <= now - reminder_time < 600`, key absent from the ledger, recipients
selected by `matchStudents`; when the selection is empty the row is skipped
by `continue` and the key is not added; otherwise one email per recipient is
issued and the key is added after the loop, whatever the outcomes. -/
def mailClassThresholdStep (oracle : String → Bool) (now : Int)
    (students : List Student) (r : ClassRow) (tgt : Int) (hoursBefore : Nat)
    (sent : List String) : MOut :=
  let reminderTime := tgt - (hoursBefore : Int) * 3600
  let key := mailClassKey r hoursBefore
  if 0 ≤ now - reminderTime ∧ now - reminderTime < 600 ∧ key ∉ sent then
    let recipients := matchStudents students r.course r.batchName r.year (pyStrip r.mode)
    if recipients.isEmpty then ⟨[], [], sent⟩
    else ⟨recipients.map fun s => (s.email, key, oracle s.email), [key], key :: sent⟩
  else ⟨[], [], sent⟩

/-- One class row of the mail evaluator: parse (a `ValueError` skips the row
by `continue`), then `for hours_before in [24, 1]`. -/
def mailProcessClassRow (oracle : String → Bool) (now : Int)
    (students : List Student) (sent : List String) (r : ClassRow) : MOut :=
  match r.target with
  | none => ⟨[], [], sent⟩
  | some tgt =>
    let o1 := mailClassThresholdStep oracle now students r tgt 24 sent
    let o2 := mailClassThresholdStep oracle now students r tgt 1 o1.ledger
    ⟨o1.sends ++ o2.sends, o1.fired ++ o2.fired, o2.ledger⟩

/-- The mail evaluator over the whole `classes` snapshot. -/
def mailProcessClasses (oracle : String → Bool) (now : Int)
    (students : List Student) (sent : List String) : List ClassRow → MOut
  | [] => ⟨[], [], sent⟩
  | r :: rest =>
    let o := mailProcessClassRow oracle now students sent r
    let os := mailProcessClasses oracle now students o.ledger rest
    ⟨o.sends ++ os.sends, o.fired ++ os.fired, os.ledger⟩

/-- One threshold of one assignment row of the mail evaluator
(`mail_scheduler.py`, lines 152-182); same shape as the class step. -/
def mailAssignThresholdStep (oracle : String → Bool) (now : Int)
    (students : List Student) (r : AssignRow) (tgt : Int) (hoursBefore : Nat)
    (sent : List String) : MOut :=
  let reminderTime := tgt - (hoursBefore : Int) * 3600
  let key := mailAssignKey r hoursBefore
  if 0 ≤ now - reminderTime ∧ now - reminderTime < 600 ∧ key ∉ sent then
    let recipients := matchStudents students r.course r.batchName r.year (pyStrip r.mode)
    if recipients.isEmpty then ⟨[], [], sent⟩
    else ⟨recipients.map fun s => (s.email, key, oracle s.email), [key], key :: sent⟩
  else ⟨[], [], sent⟩

/-- One assignment row of the mail evaluator. -/
def mailProcessAssignRow (oracle : String → Bool) (now : Int)
    (students : List Student) (sent : List String) (r : AssignRow) : MOut :=
  match r.target with
  | none => ⟨[], [], sent⟩
  | some tgt =>
    let o1 := mailAssignThresholdStep oracle now students r tgt 24 sent
    let o2 := mailAssignThresholdStep oracle now students r tgt 1 o1.ledger
    ⟨o1.sends ++ o2.sends, o1.fired ++ o2.fired, o2.ledger⟩

/-- The mail evaluator over the whole `assignments` snapshot. -/
def mailProcessAssigns (oracle : String → Bool) (now : Int)
    (students : List Student) (sent : List String) : List AssignRow → MOut
  | [] => ⟨[], [], sent⟩
  | r :: rest =>
    let o := mailProcessAssignRow oracle now students sent r
    let os := mailProcessAssigns oracle now students o.ledger rest
    ⟨o.sends ++ os.sends, o.fired ++ os.fired, os.ledger⟩

/-- The collaborators of one mail tick: the three database reads of
`send_reminders` (lines 76-78), any of which may raise. -/
structure MailTickEnv where
  now : Int
  studentsRead : Except String (List Student)
  classesRead : Except String (List ClassRow)
  assignmentsRead : Except String (List AssignRow)

/-- One call of `send_reminders` (`mail_scheduler.py`, lines 71-182): the
three reads happen before any evaluation, so a raise there leaves the
ledger untouched; then classes, then assignments. -/
def send_reminders (oracle : String → Bool) (env : MailTickEnv)
    (sent : List String) : Except String MOut := do
  let students ← env.studentsRead
  let classRows ← env.classesRead
  let assignRows ← env.assignmentsRead
  let o1 := mailProcessClasses oracle env.now students sent classRows
  let o2 := mailProcessAssigns oracle env.now students o1.ledger assignRows
  return ⟨o1.sends ++ o2.sends, o1.fired ++ o2.fired, o2.ledger⟩

/-- The mail scheduler main loop (`mail_scheduler.py`, lines 189-194):
`send_reminders` inside a try/except, so every iteration runs regardless
of failures of earlier iterations. -/
def mail_main_loop (oracle : String → Bool) :
    List MailTickEnv → List String → LoopOut
  | [], sent => ⟨0, [], sent⟩
  | env :: rest, sent =>
    let step : List String × List String :=
      match send_reminders oracle env sent with
      | .error _ => ([], sent)
      | .ok o => (o.fired, o.ledger)
    let os := mail_main_loop oracle rest step.2
    ⟨os.ticks + 1, step.1 ++ os.fired, os.ledger⟩

/-- Python truthiness test used by the startup checks: `os.getenv` yields
`None` for an absent variable, and both `None` and the empty string are
falsy. -/
def pyFalsy : Option String → Bool
  | none => true
  | some s => s == ""

/-- Model of `int(os.getenv("DISCORD_CHANNEL_ID"))`: `int(None)` raises a
`TypeError`, a non-numeric string raises a `ValueError`. -/
def intOfEnv : Option String → Except String Int
  | none => .error "TypeError: int() argument is None"
  | some s =>
    match s.toInt? with
    | none => .error "ValueError: invalid literal for int()"
    | some n => .ok n

/-- The environment variables read by `discord_notifier.py`. -/
structure DiscordEnvVars where
  discordToken : Option String
  discordChannelId : Option String
  dbPath : Option String
deriving DecidableEq

/-- The environment variables read by `mail_scheduler.py`. -/
structure MailEnvVars where
  dbPath : Option String
  senderEmail : Option String
  senderPass : Option String
deriving DecidableEq

/-- The hardcoded fallback for `DB_PATH` in `mail_scheduler.py`, line 17. -/
def MAIL_DEFAULT_DB_PATH : String :=
  "D:\\Internship_ICT\\Final\\automated_reminders\\database\\reminders.db"

/-- Module-level startup of `discord_notifier.py` (lines 14-19): the
`int` conversion of the channel id runs first, then the combined falsiness
check raises a `ValueError` when any of the three values is missing. -/
def discordStartup (e : DiscordEnvVars) : Except String Int := do
  let cid ← intOfEnv e.discordChannelId
  if pyFalsy e.discordToken || cid == 0 || pyFalsy e.dbPath then
    .error "Missing DISCORD_TOKEN, DISCORD_CHANNEL_ID, or DB_PATH in .env"
  else
    return cid

/-- Module-level startup of `mail_scheduler.py` (lines 17-22): `DB_PATH`
falls back to a hardcoded default, and only the sender identity is
checked. -/
def mailStartup (e : MailEnvVars) : Except String String :=
  let dbPath := e.dbPath.getD MAIL_DEFAULT_DB_PATH
  if pyFalsy e.senderEmail || pyFalsy e.senderPass then
    .error "Missing SENDER_EMAIL or SENDER_PASS in .env file!"
  else
    .ok dbPath

/-- Whole-process model of the Discord variant: a startup error aborts
before any loop iteration. -/
def discordMain (e : DiscordEnvVars) (oracle : String → Bool)
    (envs : List DiscordTickEnv) (sent : List String) : Option LoopOut :=
  match discordStartup e with
  | .error _ => none
  | .ok _ => some (check_and_send_reminders oracle envs sent)

/-- Whole-process model of the mail variant: a startup error aborts before
any loop iteration. -/
def mailMain (e : MailEnvVars) (oracle : String → Bool)
    (envs : List MailTickEnv) (sent : List String) : Option LoopOut :=
  match mailStartup e with
  | .error _ => none
  | .ok _ => some (mail_main_loop oracle envs sent)

/-- Model of `f.readlines()`: maximal chunks ending at a newline (kept) or
at the end of the file; no empty final chunk. -/
def readlinesAux : List Char → List Char → List (List Char)
  | [], acc => if acc.isEmpty then [] else [acc]
  | c :: rest, acc =>
    if c = '\n' then (acc ++ [ '\n' ]) :: readlinesAux rest []
    else readlinesAux rest (acc ++ [c])

/-- `load_sent_log` of `discord_notifier.py` (lines 32-36) applied to the
contents of an existing log file: one stripped entry per line. -/
def load_sent_log (file : List Char) : List (List Char) :=
  (readlinesAux file []).map stripChars

/-- `save_sent_log` of `discord_notifier.py` (lines 38-41): each key of the
set is written followed by a newline; the set is modelled as the list of
its iteration order. -/
def save_sent_log : List (List Char) → List Char
  | [] => []
  | k :: rest => k ++ '\n' :: save_sent_log rest

/-- The dedup invariant of one ledger-threading step, for a fixed key `k`:
the ledger is monotone, the step dispatches `k` at most once, never when
`k` is already in the ledger, and records `k` in the ledger whenever it
dispatches it. -/
def LedgerStep (k : String) (sent fired ledger : List String) : Prop :=
  (k ∈ sent → k ∈ ledger) ∧ fired.count k ≤ 1 ∧
    (k ∈ sent → fired.count k = 0) ∧ (k ∈ fired → k ∈ ledger)

/-- A transport oracle for concrete runs in which every attempt succeeds. -/
def oracleOk : String → Bool := fun _ => true

/-- A transport oracle for concrete runs in which every attempt fails. -/
def oracleFail : String → Bool := fun _ => false

/-- The class event of the scenario in the specification:
course CS101, batch A, session Intro, date 2024-01-02, time 10:00. The
target instant is its epoch value in seconds. -/
def scenarioClass : ClassRow :=
  { course := "CS101", batchName := "A", year := "2", mode := "Online",
    sessionName := "Intro", date := "2024-01-02", time := "10:00",
    target := some 1704189600 }

/-- The same event one day later: only `date` (and hence the parsed target)
differs from `scenarioClass`. -/
def scenarioClassNextDay : ClassRow :=
  { scenarioClass with date := "2024-01-03", target := some (1704189600 + 86400) }

/-- A class row whose date or time failed to parse. -/
def badParseClass : ClassRow :=
  { scenarioClass with date := "not-a-date", target := none }

/-- A student matching `scenarioClass` up to letter case on course, batch
and mode, with the year written exactly as on the event. -/
def scenarioStudent : Student :=
  { name := "Bob", email := "bob@example.com", course := "cs101",
    batchName := "a", year := "2", mode := "ONLINE" }

/-- A student agreeing with course CS101, batch A, year ii, mode Online up
to letter case on every attribute, the year included. -/
def caseStudent : Student :=
  { name := "Cara", email := "cara@example.com", course := "CS101",
    batchName := "A", year := "II", mode := "Online" }

/-- A Discord tick in which the database read of the classes table raises
(store unreachable). -/
def badDiscordEnv : DiscordTickEnv :=
  { now := 0, classesRead := .error "database is locked",
    assignmentsRead := .ok [], saveOutcome := .ok () }

/-- A Discord tick in which every collaborator succeeds. -/
def goodDiscordEnv : DiscordTickEnv :=
  { now := 0, classesRead := .ok [], assignmentsRead := .ok [],
    saveOutcome := .ok () }

/-! ## Dedup ledger invariants -/

theorem ledgerStep_nil (k : String) (sent : List String) :
    LedgerStep k sent [] sent :=
  ⟨id, by simp, fun _ => by simp, by simp⟩

theorem ledgerStep_fire (k k0 : String) (sent : List String) (h : k0 ∉ sent) :
    LedgerStep k sent [k0] (k0 :: sent) := by
  refine ⟨fun hk => List.mem_cons_of_mem _ hk, ?_, ?_, ?_⟩
  · simp only [List.count_cons, List.count_nil]
    split <;> omega
  · intro hk
    have hne : k ≠ k0 := fun he => h (he ▸ hk)
    simp [List.count_cons, hne]
  · intro hk
    simp only [List.mem_singleton] at hk
    exact hk ▸ List.mem_cons_self _ _

theorem ledgerStep_seq {k : String} {sent f1 l1 f2 l2 : List String}
    (h1 : LedgerStep k sent f1 l1) (h2 : LedgerStep k l1 f2 l2) :
    LedgerStep k sent (f1 ++ f2) l2 := by
  obtain ⟨m1, c1, z1, r1⟩ := h1
  obtain ⟨m2, c2, z2, r2⟩ := h2
  refine ⟨fun hk => m2 (m1 hk), ?_, ?_, ?_⟩
  · rw [List.count_append]
    by_cases hf : k ∈ f1
    · have hz : f2.count k = 0 := z2 (r1 hf)
      omega
    · have hz : f1.count k = 0 := List.count_eq_zero.mpr hf
      omega
  · intro hk
    rw [List.count_append, z1 hk, z2 (m1 hk)]
  · intro hk
    rcases List.mem_append.mp hk with h | h
    · exact m2 (r1 h)
    · exact r2 h

theorem discordProcessRow_ledgerStep (oracle : String → Bool) (now : Int)
    (sent : List String) (r : ClassRow) (k : String) :
    LedgerStep k sent (discordProcessRow oracle now sent r).fired
      (discordProcessRow oracle now sent r).ledger := by
  unfold discordProcessRow
  cases r.target with
  | none => exact ledgerStep_nil k sent
  | some tgt =>
    dsimp only
    split_ifs with h1 h2
    · exact ledgerStep_fire k _ sent h1.2.2
    · exact ledgerStep_fire k _ sent h2.2.2
    · exact ledgerStep_nil k sent

theorem discordProcessAssignRow_ledgerStep (oracle : String → Bool) (now : Int)
    (sent : List String) (r : AssignRow) (k : String) :
    LedgerStep k sent (discordProcessAssignRow oracle now sent r).fired
      (discordProcessAssignRow oracle now sent r).ledger := by
  unfold discordProcessAssignRow
  split_ifs with h0
  · exact ledgerStep_nil k sent
  · cases r.target with
    | none => exact ledgerStep_nil k sent
    | some tgt =>
      dsimp only
      split_ifs with h1 h2
      · exact ledgerStep_fire k _ sent h1.2.2
      · exact ledgerStep_fire k _ sent h2.2.2
      · exact ledgerStep_nil k sent

theorem discordProcessClasses_ledgerStep (oracle : String → Bool) (now : Int)
    (k : String) (rows : List ClassRow) : ∀ sent : List String,
    LedgerStep k sent (discordProcessClasses oracle now sent rows).fired
      (discordProcessClasses oracle now sent rows).ledger := by
  induction rows with
  | nil => intro sent; exact ledgerStep_nil k sent
  | cons r rest ih =>
    intro sent
    have h1 := discordProcessRow_ledgerStep oracle now sent r k
    have h2 := ih (discordProcessRow oracle now sent r).ledger
    simpa [discordProcessClasses] using ledgerStep_seq h1 h2

theorem discordProcessAssigns_ledgerStep (oracle : String → Bool) (now : Int)
    (k : String) (rows : List AssignRow) : ∀ sent : List String,
    LedgerStep k sent (discordProcessAssigns oracle now sent rows).fired
      (discordProcessAssigns oracle now sent rows).ledger := by
  induction rows with
  | nil => intro sent; exact ledgerStep_nil k sent
  | cons r rest ih =>
    intro sent
    have h1 := discordProcessAssignRow_ledgerStep oracle now sent r k
    have h2 := ih (discordProcessAssignRow oracle now sent r).ledger
    simpa [discordProcessAssigns] using ledgerStep_seq h1 h2

theorem discordTickRun_ledgerStep (oracle : String → Bool) (env : DiscordTickEnv)
    (sent : List String) (k : String) :
    LedgerStep k sent (discordTickRun oracle env sent).1.fired
      (discordTickRun oracle env sent).1.ledger := by
  unfold discordTickRun
  cases env.classesRead with
  | error e => exact ledgerStep_nil k sent
  | ok classRows =>
    dsimp only
    cases env.assignmentsRead with
    | error e => exact discordProcessClasses_ledgerStep oracle env.now k classRows sent
    | ok assignRows =>
      dsimp only
      have h1 := discordProcessClasses_ledgerStep oracle env.now k classRows sent
      have h2 := discordProcessAssigns_ledgerStep oracle env.now k assignRows
        (discordProcessClasses oracle env.now sent classRows).ledger
      cases env.saveOutcome with
      | error e => exact ledgerStep_seq h1 h2
      | ok u => exact ledgerStep_seq h1 h2

theorem discordLoop_ledgerStep (oracle : String → Bool) (k : String)
    (envs : List DiscordTickEnv) : ∀ sent : List String,
    LedgerStep k sent (check_and_send_reminders oracle envs sent).fired
      (check_and_send_reminders oracle envs sent).ledger := by
  induction envs with
  | nil => intro sent; exact ledgerStep_nil k sent
  | cons env rest ih =>
    intro sent
    have htick := discordTickRun_ledgerStep oracle env sent k
    simp only [check_and_send_reminders]
    rcases hrun : discordTickRun oracle env sent with ⟨o, crashed⟩
    rw [hrun] at htick
    cases crashed with
    | true => simpa using htick
    | false =>
      have h2 := ih o.ledger
      simpa using ledgerStep_seq htick h2

theorem mailClassThresholdStep_ledgerStep (oracle : String → Bool) (now : Int)
    (students : List Student) (r : ClassRow) (tgt : Int) (hoursBefore : Nat)
    (sent : List String) (k : String) :
    LedgerStep k sent
      (mailClassThresholdStep oracle now students r tgt hoursBefore sent).fired
      (mailClassThresholdStep oracle now students r tgt hoursBefore sent).ledger := by
  unfold mailClassThresholdStep
  dsimp only
  split_ifs with h1 h2
  · exact ledgerStep_nil k sent
  · exact ledgerStep_fire k _ sent h1.2.2
  · exact ledgerStep_nil k sent

theorem mailProcessClassRow_ledgerStep (oracle : String → Bool) (now : Int)
    (students : List Student) (sent : List String) (r : ClassRow) (k : String) :
    LedgerStep k sent (mailProcessClassRow oracle now students sent r).fired
      (mailProcessClassRow oracle now students sent r).ledger := by
  unfold mailProcessClassRow
  cases r.target with
  | none => exact ledgerStep_nil k sent
  | some tgt =>
    dsimp only
    exact ledgerStep_seq
      (mailClassThresholdStep_ledgerStep oracle now students r tgt 24 sent k)
      (mailClassThresholdStep_ledgerStep oracle now students r tgt 1 _ k)

theorem mailProcessClasses_ledgerStep (oracle : String → Bool) (now : Int)
    (students : List Student) (k : String) (rows : List ClassRow) :
    ∀ sent : List String,
    LedgerStep k sent (mailProcessClasses oracle now students sent rows).fired
      (mailProcessClasses oracle now students sent rows).ledger := by
  induction rows with
  | nil => intro sent; exact ledgerStep_nil k sent
  | cons r rest ih =>
    intro sent
    have h1 := mailProcessClassRow_ledgerStep oracle now students sent r k
    have h2 := ih (mailProcessClassRow oracle now students sent r).ledger
    simpa [mailProcessClasses] using ledgerStep_seq h1 h2

theorem mailAssignThresholdStep_ledgerStep (oracle : String → Bool) (now : Int)
    (students : List Student) (r : AssignRow) (tgt : Int) (hoursBefore : Nat)
    (sent : List String) (k : String) :
    LedgerStep k sent
      (mailAssignThresholdStep oracle now students r tgt hoursBefore sent).fired
      (mailAssignThresholdStep oracle now students r tgt hoursBefore sent).ledger := by
  unfold mailAssignThresholdStep
  dsimp only
  split_ifs with h1 h2
  · exact ledgerStep_nil k sent
  · exact ledgerStep_fire k _ sent h1.2.2
  · exact ledgerStep_nil k sent

theorem mailProcessAssignRow_ledgerStep (oracle : String → Bool) (now : Int)
    (students : List Student) (sent : List String) (r : AssignRow) (k : String) :
    LedgerStep k sent (mailProcessAssignRow oracle now students sent r).fired
      (mailProcessAssignRow oracle now students sent r).ledger := by
  unfold mailProcessAssignRow
  cases r.target with
  | none => exact ledgerStep_nil k sent
  | some tgt =>
    dsimp only
    exact ledgerStep_seq
      (mailAssignThresholdStep_ledgerStep oracle now students r tgt 24 sent k)
      (mailAssignThresholdStep_ledgerStep oracle now students r tgt 1 _ k)

theorem mailProcessAssigns_ledgerStep (oracle : String → Bool) (now : Int)
    (students : List Student) (k : String) (rows : List AssignRow) :
    ∀ sent : List String,
    LedgerStep k sent (mailProcessAssigns oracle now students sent rows).fired
      (mailProcessAssigns oracle now students sent rows).ledger := by
  induction rows with
  | nil => intro sent; exact ledgerStep_nil k sent
  | cons r rest ih =>
    intro sent
    have h1 := mailProcessAssignRow_ledgerStep oracle now students sent r k
    have h2 := ih (mailProcessAssignRow oracle now students sent r).ledger
    simpa [mailProcessAssigns] using ledgerStep_seq h1 h2

theorem send_reminders_ledgerStep (oracle : String → Bool) (env : MailTickEnv)
    (sent : List String) (o : MOut) (k : String)
    (h : send_reminders oracle env sent = .ok o) :
    LedgerStep k sent o.fired o.ledger := by
  unfold send_reminders at h
  cases hs : env.studentsRead with
  | error e => rw [hs] at h; exact absurd h (by simp [Bind.bind, Except.bind])
  | ok students =>
    rw [hs] at h
    cases hc : env.classesRead with
    | error e => rw [hc] at h; exact absurd h (by simp [Bind.bind, Except.bind])
    | ok classRows =>
      rw [hc] at h
      cases ha : env.assignmentsRead with
      | error e => rw [ha] at h; exact absurd h (by simp [Bind.bind, Except.bind])
      | ok assignRows =>
        rw [ha] at h
        simp only [Bind.bind, Except.bind, Except.ok.injEq, pure, Except.pure] at h
        subst h
        exact ledgerStep_seq
          (mailProcessClasses_ledgerStep oracle env.now students k classRows sent)
          (mailProcessAssigns_ledgerStep oracle env.now students k assignRows _)

theorem mailLoop_ledgerStep (oracle : String → Bool) (k : String)
    (envs : List MailTickEnv) : ∀ sent : List String,
    LedgerStep k sent (mail_main_loop oracle envs sent).fired
      (mail_main_loop oracle envs sent).ledger := by
  induction envs with
  | nil => intro sent; exact ledgerStep_nil k sent
  | cons env rest ih =>
    intro sent
    simp only [mail_main_loop]
    cases hsr : send_reminders oracle env sent with
    | error e =>
      simpa using ledgerStep_seq (ledgerStep_nil k sent) (ih sent)
    | ok o =>
      have h1 := send_reminders_ledgerStep oracle env sent o k hsr
      simpa using ledgerStep_seq h1 (ih o.ledger)

/-- C1. At-most-once per key: over any run of consecutive ticks threading a
single ledger, each variant dispatches any fixed dedup key at most once.
Every dispatch site checks that the key is absent from the ledger before
sending and inserts the key in the same tick, so the accumulated dispatch
count of any key never exceeds one. -/
theorem at_most_once_per_key (oracle : String → Bool) (k : String)
    (denvs : List DiscordTickEnv) (menvs : List MailTickEnv)
    (sent : List String) :
    (check_and_send_reminders oracle denvs sent).fired.count k ≤ 1 ∧
    (mail_main_loop oracle menvs sent).fired.count k ≤ 1 :=
  ⟨(discordLoop_ledgerStep oracle k denvs sent).2.1,
   (mailLoop_ledgerStep oracle k menvs sent).2.1⟩

/-! ## Reminder key identity -/

theorem discordKey24_ne_discordKey1 (r : ClassRow) :
    discordKey24 r ≠ discordKey1 r := by
  intro h
  have hlen := congrArg String.length h
  rw [discordKey24, discordKey1, String.length_append, String.length_append] at hlen
  have h5 : ("-24hr" : String).length = 5 := rfl
  have h4 : ("-1hr" : String).length = 4 := rfl
  rw [h5, h4] at hlen
  omega

theorem discordKey24_date_inj (r r2 : ClassRow)
    (hc : r.course = r2.course) (hb : r.batchName = r2.batchName)
    (hs : r.sessionName = r2.sessionName) (hd : r.date ≠ r2.date) :
    discordKey24 r ≠ discordKey24 r2 := by
  intro h
  apply hd
  have hdata := congrArg String.data h
  simp only [discordKey24, discordClassKeyBase, hc, hb, hs, String.data_append] at hdata
  have h1 := List.append_cancel_right hdata
  have h2 := List.append_cancel_left h1
  exact String.ext h2

theorem mailClassKey_ignores_date (r r2 : ClassRow)
    (hc : r.course = r2.course) (hb : r.batchName = r2.batchName)
    (hy : r.year = r2.year) (hm : r.mode = r2.mode)
    (hs : r.sessionName = r2.sessionName) (hoursBefore : Nat) :
    mailClassKey r hoursBefore = mailClassKey r2 hoursBefore := by
  simp only [mailClassKey, hc, hb, hy, hm, hs]

/-- C2 counterexample: in the mail variant the dedup key does not contain
the date, so the scenario event and the same event one day later (all other
attributes equal) produce the same 24 hour key, and that key is not the
string `class-CS101-A-Intro-2024-01-02-24hr` announced by the claim. -/
theorem reminder_key_counterexample :
    scenarioClass.date ≠ scenarioClassNextDay.date ∧
    mailClassKey scenarioClass 24 = mailClassKey scenarioClassNextDay 24 ∧
    mailClassKey scenarioClass 24 ≠ "class-CS101-A-Intro-2024-01-02-24hr" :=
  ⟨by decide, rfl, by decide⟩

/-- C2 (amended). The two variants key on different tuples. Discord keys on
(kind, course, batch, session, date, threshold): the scenario event gets
exactly the key `class-CS101-A-Intro-2024-01-02-24hr`, and two events
differing only in date get distinct keys. Mail keys on (kind, course,
batch, year, stripped mode, session, threshold) and ignores the date. -/
theorem reminder_key_identity_amended :
    discordKey24 scenarioClass = "class-CS101-A-Intro-2024-01-02-24hr" ∧
    (∀ r r2 : ClassRow, r.course = r2.course → r.batchName = r2.batchName →
      r.sessionName = r2.sessionName → r.date ≠ r2.date →
      discordKey24 r ≠ discordKey24 r2) ∧
    (∀ r r2 : ClassRow, r.course = r2.course → r.batchName = r2.batchName →
      r.year = r2.year → r.mode = r2.mode → r.sessionName = r2.sessionName →
      ∀ hoursBefore : Nat, mailClassKey r hoursBefore = mailClassKey r2 hoursBefore) :=
  ⟨rfl,
   fun r r2 hc hb hs hd => discordKey24_date_inj r r2 hc hb hs hd,
   fun r r2 hc hb hy hm hs hoursBefore =>
     mailClassKey_ignores_date r r2 hc hb hy hm hs hoursBefore⟩

/-- Witness for C2 (amended), at the scenario event and its day-later
copy. -/
theorem reminder_key_identity_amended_witness :
    discordKey24 scenarioClass ≠ discordKey24 scenarioClassNextDay ∧
    mailClassKey scenarioClass 24 = mailClassKey scenarioClassNextDay 24 :=
  ⟨reminder_key_identity_amended.2.1 scenarioClass scenarioClassNextDay
      rfl rfl rfl (by decide),
   reminder_key_identity_amended.2.2 scenarioClass scenarioClassNextDay
      rfl rfl rfl rfl rfl 24⟩

/-! ## Firing windows -/

/-- C3 counterexample: with elapsed defined as `now - (target - 24h)`, a
Discord tick at elapsed = -1 seconds (one second before the threshold
crossing) does dispatch the 24 hour reminder, though the claim says a tick
with negative elapsed must not dispatch: the Discord guard is
`0 <= seconds_until - 86400 <= 600`, a closed window placed before the
crossing, not the half-open window after it. -/
theorem firing_window_counterexample :
    ((1704189600 - 86401 : Int) - (1704189600 - 86400) = -1) ∧
    discordKey24 scenarioClass ∈
      (discordProcessRow oracleOk (1704189600 - 86401) [] scenarioClass).fired :=
  ⟨by decide, by decide⟩

/-- C3 (amended). Mail variant: for an unsent key with at least one matched
recipient, the reminder dispatches iff `0 <= elapsed < 600` (half-open, as
claimed). Discord variant: for an unsent 24 hour key, the reminder
dispatches iff `-600 <= elapsed <= 0` (closed window of width 601 anchored
before the threshold crossing). -/
theorem firing_window_amended :
    (∀ (oracle : String → Bool) (now : Int) (sent : List String) (r : ClassRow)
        (tgt : Int), r.target = some tgt → discordKey24 r ∉ sent →
      (discordKey24 r ∈ (discordProcessRow oracle now sent r).fired ↔
        -600 ≤ now - (tgt - 86400) ∧ now - (tgt - 86400) ≤ 0)) ∧
    (∀ (oracle : String → Bool) (now : Int) (students : List Student) (r : ClassRow)
        (tgt : Int) (hoursBefore : Nat) (sent : List String),
      mailClassKey r hoursBefore ∉ sent →
      matchStudents students r.course r.batchName r.year (pyStrip r.mode) ≠ [] →
      (mailClassKey r hoursBefore ∈
          (mailClassThresholdStep oracle now students r tgt hoursBefore sent).fired ↔
        0 ≤ now - (tgt - (hoursBefore : Int) * 3600) ∧
          now - (tgt - (hoursBefore : Int) * 3600) < 600)) := by
  constructor
  · intro oracle now sent r tgt htgt hns
    unfold discordProcessRow
    rw [htgt]
    dsimp only
    split_ifs with h1 h2
    · simp only [List.mem_singleton]
      constructor
      · intro _
        obtain ⟨ha, hb, -⟩ := h1
        omega
      · intro _
        trivial
    · simp only [List.mem_singleton]
      constructor
      · intro he
        exact absurd he (discordKey24_ne_discordKey1 r)
      · intro hw
        exact absurd ⟨by omega, by omega, hns⟩ h1
    · simp only [List.not_mem_nil]
      constructor
      · intro hf
        exact hf.elim
      · intro hw
        exact absurd ⟨by omega, by omega, hns⟩ h1
  · intro oracle now students r tgt hoursBefore sent hns hm
    unfold mailClassThresholdStep
    dsimp only
    split_ifs with h1 h2
    · exact absurd (List.isEmpty_iff.mp h2) hm
    · simp only [List.mem_singleton]
      constructor
      · intro _
        exact ⟨h1.1, h1.2.1⟩
      · intro _
        trivial
    · simp only [List.not_mem_nil]
      constructor
      · intro hf
        exact hf.elim
      · intro hw
        exact absurd ⟨hw.1, hw.2, hns⟩ h1

/-- Witness for C3 (amended): at the exact threshold crossing both variants
dispatch. -/
theorem firing_window_amended_witness :
    discordKey24 scenarioClass ∈
      (discordProcessRow oracleOk (1704189600 - 86400) [] scenarioClass).fired ∧
    mailClassKey scenarioClass 24 ∈
      (mailClassThresholdStep oracleOk (1704189600 - 86400) [scenarioStudent]
        scenarioClass 1704189600 24 []).fired :=
  ⟨(firing_window_amended.1 oracleOk (1704189600 - 86400) [] scenarioClass 1704189600
      rfl (by decide)).mpr (by decide),
   (firing_window_amended.2 oracleOk (1704189600 - 86400) [scenarioStudent]
      scenarioClass 1704189600 24 [] (by decide) (by decide)).mpr (by decide)⟩

/-! ## Threshold independence -/

theorem mailClassThresholdStep_fired_of_due (oracle : String → Bool) (now : Int)
    (students : List Student) (r : ClassRow) (tgt : Int) (hoursBefore : Nat)
    (sent : List String)
    (hw : 0 ≤ now - (tgt - (hoursBefore : Int) * 3600) ∧
      now - (tgt - (hoursBefore : Int) * 3600) < 600)
    (hns : mailClassKey r hoursBefore ∉ sent)
    (hm : matchStudents students r.course r.batchName r.year (pyStrip r.mode) ≠ []) :
    (mailClassThresholdStep oracle now students r tgt hoursBefore sent).fired
        = [mailClassKey r hoursBefore] ∧
    (mailClassThresholdStep oracle now students r tgt hoursBefore sent).ledger
        = mailClassKey r hoursBefore :: sent := by
  unfold mailClassThresholdStep
  dsimp only
  rw [if_pos ⟨hw.1, hw.2, hns⟩, if_neg]
  · exact ⟨rfl, rfl⟩
  · simpa [List.isEmpty_iff] using hm

theorem mailClassThresholdStep_nop_of_not_due (oracle : String → Bool) (now : Int)
    (students : List Student) (r : ClassRow) (tgt : Int) (hoursBefore : Nat)
    (sent : List String)
    (hw : ¬(0 ≤ now - (tgt - (hoursBefore : Int) * 3600) ∧
      now - (tgt - (hoursBefore : Int) * 3600) < 600 ∧
      mailClassKey r hoursBefore ∉ sent)) :
    mailClassThresholdStep oracle now students r tgt hoursBefore sent
      = ⟨[], [], sent⟩ := by
  unfold mailClassThresholdStep
  dsimp only
  rw [if_neg hw]

/-- C4. Threshold independence: in both variants, whenever a threshold of a
class event is due in a tick and its key is unsent (and, in the mail
variant, at least one recipient matches), that threshold dispatches,
independently of the other threshold. In particular, since the 24 hour and
1 hour windows are disjoint, the `elif` chaining of the Discord variant
never suppresses a due and unsent threshold, and if both thresholds were
simultaneously due and unsent both would dispatch. -/
theorem threshold_independence :
    (∀ (oracle : String → Bool) (now : Int) (sent : List String) (r : ClassRow)
        (tgt : Int), r.target = some tgt →
      ((0 ≤ tgt - now - 86400 ∧ tgt - now - 86400 ≤ 600) → discordKey24 r ∉ sent →
        discordKey24 r ∈ (discordProcessRow oracle now sent r).fired) ∧
      ((0 ≤ tgt - now - 3600 ∧ tgt - now - 3600 ≤ 600) → discordKey1 r ∉ sent →
        discordKey1 r ∈ (discordProcessRow oracle now sent r).fired)) ∧
    (∀ (oracle : String → Bool) (now : Int) (students : List Student)
        (sent : List String) (r : ClassRow) (tgt : Int), r.target = some tgt →
      matchStudents students r.course r.batchName r.year (pyStrip r.mode) ≠ [] →
      ((0 ≤ now - (tgt - 86400) ∧ now - (tgt - 86400) < 600) →
        mailClassKey r 24 ∉ sent →
        mailClassKey r 24 ∈ (mailProcessClassRow oracle now students sent r).fired) ∧
      ((0 ≤ now - (tgt - 3600) ∧ now - (tgt - 3600) < 600) →
        mailClassKey r 1 ∉ sent →
        mailClassKey r 1 ∈ (mailProcessClassRow oracle now students sent r).fired)) := by
  constructor
  · intro oracle now sent r tgt htgt
    unfold discordProcessRow
    rw [htgt]
    dsimp only
    constructor
    · intro hw hns
      rw [if_pos ⟨hw.1, hw.2, hns⟩]
      exact List.mem_singleton.mpr rfl
    · intro hw hns
      have hnot24 : ¬(0 ≤ tgt - now - 86400 ∧ tgt - now - 86400 ≤ 600 ∧
          discordKey24 r ∉ sent) := by
        rintro ⟨h1, h2, -⟩
        omega
      rw [if_neg hnot24, if_pos ⟨hw.1, hw.2, hns⟩]
      exact List.mem_singleton.mpr rfl
  · intro oracle now students sent r tgt htgt hm
    unfold mailProcessClassRow
    rw [htgt]
    dsimp only
    constructor
    · intro hw hns
      have hw24 : 0 ≤ now - (tgt - ((24 : Nat) : Int) * 3600) ∧
          now - (tgt - ((24 : Nat) : Int) * 3600) < 600 := by
        push_cast
        omega
      obtain ⟨hf, -⟩ := mailClassThresholdStep_fired_of_due oracle now students r tgt
        24 sent hw24 hns hm
      rw [hf]
      exact List.mem_append_left _ (List.mem_singleton.mpr rfl)
    · intro hw hns
      have hnot24 : ¬(0 ≤ now - (tgt - ((24 : Nat) : Int) * 3600) ∧
          now - (tgt - ((24 : Nat) : Int) * 3600) < 600 ∧ mailClassKey r 24 ∉ sent) := by
        rintro ⟨h1, h2, -⟩
        push_cast at h1 h2
        omega
      rw [mailClassThresholdStep_nop_of_not_due oracle now students r tgt 24 sent hnot24]
      dsimp only
      have hw1 : 0 ≤ now - (tgt - ((1 : Nat) : Int) * 3600) ∧
          now - (tgt - ((1 : Nat) : Int) * 3600) < 600 := by
        push_cast
        omega
      obtain ⟨hf, -⟩ := mailClassThresholdStep_fired_of_due oracle now students r tgt
        1 sent hw1 hns hm
      rw [hf]
      exact List.mem_append_right _ (List.mem_singleton.mpr rfl)

/-- Witness for C4: a due and unsent 1 hour threshold dispatches in the
Discord variant, and a due and unsent 24 hour threshold dispatches in the
mail variant. -/
theorem threshold_independence_witness :
    discordKey1 scenarioClass ∈
      (discordProcessRow oracleOk (1704189600 - 3600) [] scenarioClass).fired ∧
    mailClassKey scenarioClass 24 ∈
      (mailProcessClassRow oracleOk (1704189600 - 86400) [scenarioStudent] []
        scenarioClass).fired :=
  ⟨(threshold_independence.1 oracleOk (1704189600 - 3600) [] scenarioClass 1704189600
      rfl).2 (by decide) (by decide),
   (threshold_independence.2 oracleOk (1704189600 - 86400) [scenarioStudent] []
      scenarioClass 1704189600 rfl (by decide)).1 (by decide) (by decide)⟩

/-! ## Recipient matching -/

/-- C5 counterexample: a recipient whose year differs from the event year
only in letter case (all other attributes equal up to case) is not
selected: the year comparison of `send_reminders` is plain equality, not
the case-insensitive comparison applied to course, batch and mode. -/
theorem recipient_matching_counterexample :
    pyLower caseStudent.year = pyLower "ii" ∧
    pyLower caseStudent.course = pyLower "CS101" ∧
    pyLower caseStudent.batchName = pyLower "A" ∧
    pyLower caseStudent.mode = pyLower "Online" ∧
    matchStudents [caseStudent] "CS101" "A" "ii" "Online" = [] := by
  refine ⟨?_, ?_, ?_, ?_, ?_⟩ <;> decide

/-- C5 (amended). A recipient is selected for a due (event, threshold) iff
its course, batch and mode equal the corresponding event attributes under
case-insensitive comparison and its year equals the event year exactly
(case-sensitively). -/
theorem recipient_matching_amended (s : Student) (students : List Student)
    (course batchName year mode : String) :
    s ∈ matchStudents students course batchName year mode ↔
      s ∈ students ∧ pyLower s.course = pyLower course ∧
        pyLower s.batchName = pyLower batchName ∧ s.year = year ∧
        pyLower s.mode = pyLower mode := by
  simp [matchStudents, List.mem_filter, and_assoc]

/-! ## Zero-match retry -/

/-- C6. When recipient matching yields the empty selection for a due
(event, threshold), no email is issued, the key is not dispatched, the
ledger is unchanged, and a later tick starting from the resulting ledger
behaves exactly as one starting from the original ledger: the pair remains
eligible while its window is open. -/
theorem zero_match_retry (oracle : String → Bool) (now : Int)
    (students : List Student) (r : ClassRow) (tgt : Int) (hoursBefore : Nat)
    (sent : List String)
    (hm : matchStudents students r.course r.batchName r.year (pyStrip r.mode) = []) :
    (mailClassThresholdStep oracle now students r tgt hoursBefore sent).sends = [] ∧
    (mailClassThresholdStep oracle now students r tgt hoursBefore sent).fired = [] ∧
    (mailClassThresholdStep oracle now students r tgt hoursBefore sent).ledger = sent ∧
    (∀ (oracle2 : String → Bool) (now2 : Int) (students2 : List Student),
      mailClassThresholdStep oracle2 now2 students2 r tgt hoursBefore
          (mailClassThresholdStep oracle now students r tgt hoursBefore sent).ledger =
        mailClassThresholdStep oracle2 now2 students2 r tgt hoursBefore sent) := by
  have hstep : mailClassThresholdStep oracle now students r tgt hoursBefore sent
      = ⟨[], [], sent⟩ := by
    unfold mailClassThresholdStep
    dsimp only
    split_ifs with h1 h2
    · rfl
    · exact absurd (by rw [hm]; rfl) h2
    · rfl
  rw [hstep]
  exact ⟨rfl, rfl, rfl, fun _ _ _ => rfl⟩

/-- Witness for C6: with an empty roster the due 24 hour reminder of the
scenario event leaves the ledger unchanged. -/
theorem zero_match_retry_witness :
    (mailClassThresholdStep oracleOk (1704189600 - 86400) [] scenarioClass
      1704189600 24 []).ledger = [] :=
  (zero_match_retry oracleOk (1704189600 - 86400) [] scenarioClass 1704189600
    24 [] rfl).2.2.1

/-! ## Fire and forget marking -/

/-- C7. Fire-and-forget: whenever a send attempt is issued, its key is
added to the ledger whatever the transport outcome (both send helpers
catch transport exceptions internally), and the dispatch decisions and the
resulting ledger do not depend on the transport oracle at all: a pair whose
delivery attempt failed is marked sent and never retried. -/
theorem fire_and_forget :
    (∀ (oracle : String → Bool) (now : Int) (sent : List String) (r : ClassRow)
        (k : String) (b : Bool),
      (k, b) ∈ (discordProcessRow oracle now sent r).sends →
      k ∈ (discordProcessRow oracle now sent r).ledger) ∧
    (∀ (o1 o2 : String → Bool) (now : Int) (sent : List String) (r : ClassRow),
      (discordProcessRow o1 now sent r).fired = (discordProcessRow o2 now sent r).fired ∧
      (discordProcessRow o1 now sent r).ledger = (discordProcessRow o2 now sent r).ledger) ∧
    (∀ (oracle : String → Bool) (now : Int) (students : List Student) (r : ClassRow)
        (tgt : Int) (hoursBefore : Nat) (sent : List String) (e k : String) (b : Bool),
      (e, k, b) ∈ (mailClassThresholdStep oracle now students r tgt hoursBefore sent).sends →
      k ∈ (mailClassThresholdStep oracle now students r tgt hoursBefore sent).ledger) ∧
    (∀ (o1 o2 : String → Bool) (now : Int) (students : List Student) (r : ClassRow)
        (tgt : Int) (hoursBefore : Nat) (sent : List String),
      (mailClassThresholdStep o1 now students r tgt hoursBefore sent).fired =
        (mailClassThresholdStep o2 now students r tgt hoursBefore sent).fired ∧
      (mailClassThresholdStep o1 now students r tgt hoursBefore sent).ledger =
        (mailClassThresholdStep o2 now students r tgt hoursBefore sent).ledger) := by
  refine ⟨?_, ?_, ?_, ?_⟩
  · intro oracle now sent r k b
    unfold discordProcessRow
    cases r.target with
    | none => intro h; exact absurd h (List.not_mem_nil _)
    | some tgt =>
      dsimp only
      split_ifs with h1 h2 <;> intro h
      · simp only [List.mem_singleton, Prod.mk.injEq] at h
        exact h.1 ▸ List.mem_cons_self _ _
      · simp only [List.mem_singleton, Prod.mk.injEq] at h
        exact h.1 ▸ List.mem_cons_self _ _
      · exact absurd h (List.not_mem_nil _)
  · intro o1 o2 now sent r
    unfold discordProcessRow
    cases r.target with
    | none => exact ⟨rfl, rfl⟩
    | some tgt =>
      dsimp only
      split_ifs <;> exact ⟨rfl, rfl⟩
  · intro oracle now students r tgt hoursBefore sent e k b
    unfold mailClassThresholdStep
    dsimp only
    split_ifs with h1 h2 <;> intro h
    · exact absurd h (List.not_mem_nil _)
    · simp only [List.mem_map, Prod.mk.injEq] at h
      obtain ⟨s, -, -, hk, -⟩ := h
      exact hk ▸ List.mem_cons_self _ _
    · exact absurd h (List.not_mem_nil _)
  · intro o1 o2 now students r tgt hoursBefore sent
    unfold mailClassThresholdStep
    dsimp only
    split_ifs <;> exact ⟨rfl, rfl⟩

/-- Witness for C7: a failed Discord attempt and a failed email attempt at
the scenario event still mark their keys sent. -/
theorem fire_and_forget_witness :
    discordKey24 scenarioClass ∈
      (discordProcessRow oracleFail (1704189600 - 86400) [] scenarioClass).ledger ∧
    mailClassKey scenarioClass 24 ∈
      (mailClassThresholdStep oracleFail (1704189600 - 86400) [scenarioStudent]
        scenarioClass 1704189600 24 []).ledger :=
  ⟨fire_and_forget.1 oracleFail (1704189600 - 86400) [] scenarioClass
      (discordKey24 scenarioClass) false (by decide),
   fire_and_forget.2.2.1 oracleFail (1704189600 - 86400) [scenarioStudent]
      scenarioClass 1704189600 24 [] scenarioStudent.email
      (mailClassKey scenarioClass 24) false (by decide)⟩

/-! ## Startup configuration checks -/

theorem discordStartup_error_of_missing (e : DiscordEnvVars)
    (he : e.discordToken = none ∨ e.discordChannelId = none ∨ e.dbPath = none) :
    ∃ msg, discordStartup e = .error msg := by
  unfold discordStartup
  cases hc : e.discordChannelId with
  | none =>
    exact ⟨"TypeError: int() argument is None",
      by simp [intOfEnv, Bind.bind, Except.bind]⟩
  | some s =>
    cases hs : s.toInt? with
    | none =>
      exact ⟨"ValueError: invalid literal for int()",
        by simp [intOfEnv, hs, Bind.bind, Except.bind]⟩
    | some n =>
      rcases he with h | h | h
      · exact ⟨"Missing DISCORD_TOKEN, DISCORD_CHANNEL_ID, or DB_PATH in .env",
          by simp [intOfEnv, hs, Bind.bind, Except.bind, pyFalsy, h]⟩
      · rw [h] at hc
        cases hc
      · exact ⟨"Missing DISCORD_TOKEN, DISCORD_CHANNEL_ID, or DB_PATH in .env",
          by simp [intOfEnv, hs, Bind.bind, Except.bind, pyFalsy, h]⟩

/-- C8 counterexample: in the mail variant an absent data-store location is
not a fatal startup error: `DB_PATH` silently falls back to a hardcoded
default and the scheduler loop runs. -/
theorem fatal_config_counterexample :
    mailStartup ⟨none, some "sender@example.com", some "secret"⟩
        = .ok MAIL_DEFAULT_DB_PATH ∧
    mailMain ⟨none, some "sender@example.com", some "secret"⟩ oracleOk [] []
        = some ⟨0, [], []⟩ :=
  ⟨rfl, rfl⟩

/-- C8 (amended). Discord variant: an absent token, channel id or data
store location raises before the loop starts. Mail variant: an absent
sender email or password raises before the loop starts, but an absent data
store location is replaced by a hardcoded default and startup proceeds. -/
theorem fatal_config_amended :
    (∀ e : DiscordEnvVars,
      (e.discordToken = none ∨ e.discordChannelId = none ∨ e.dbPath = none) →
      ∀ (oracle : String → Bool) (envs : List DiscordTickEnv) (sent : List String),
        discordMain e oracle envs sent = none) ∧
    (∀ e : MailEnvVars, (e.senderEmail = none ∨ e.senderPass = none) →
      ∀ (oracle : String → Bool) (envs : List MailTickEnv) (sent : List String),
        mailMain e oracle envs sent = none) := by
  constructor
  · intro e he oracle envs sent
    obtain ⟨msg, herr⟩ := discordStartup_error_of_missing e he
    unfold discordMain
    rw [herr]
  · intro e he oracle envs sent
    unfold mailMain mailStartup
    rcases he with h | h
    · simp [pyFalsy, h]
    · simp [pyFalsy, h]

/-- Witness for C8 (amended): a concrete environment with the token absent
aborts the Discord variant, a concrete environment with the sender email
absent aborts the mail variant. -/
theorem fatal_config_amended_witness :
    discordMain ⟨none, some "12345", some "reminders.db"⟩ oracleOk [] [] = none ∧
    mailMain ⟨some "reminders.db", none, some "secret"⟩ oracleOk [] [] = none :=
  ⟨fatal_config_amended.1 ⟨none, some "12345", some "reminders.db"⟩ (Or.inl rfl)
      oracleOk [] [],
   fatal_config_amended.2 ⟨some "reminders.db", none, some "secret"⟩ (Or.inl rfl)
      oracleOk [] []⟩

/-! ## Loop survival -/

/-- C9 counterexample: a Discord tick whose classes read raises (store
unreachable) terminates the reminder loop: with a failing first tick and a
healthy second tick, only one iteration runs instead of one per scheduled
tick, because `check_and_send_reminders` has no try/except around the body
of its `while` loop. -/
theorem loop_survival_counterexample :
    (check_and_send_reminders oracleOk [badDiscordEnv, goodDiscordEnv] []).ticks = 1 ∧
    [badDiscordEnv, goodDiscordEnv].length = 2 :=
  ⟨rfl, rfl⟩

/-- C9 (amended). Mail variant: the try/except around `send_reminders`
makes every scheduled iteration run, whatever failures earlier iterations
hit. Discord variant: only per-row failures are caught; a malformed row is
skipped and the remaining rows of the same tick are still processed. -/
theorem loop_survival_amended :
    (∀ (oracle : String → Bool) (envs : List MailTickEnv) (sent : List String),
      (mail_main_loop oracle envs sent).ticks = envs.length) ∧
    (∀ (oracle : String → Bool) (now : Int) (sent : List String) (r : ClassRow)
        (rest : List ClassRow), r.target = none →
      discordProcessClasses oracle now sent (r :: rest) =
        discordProcessClasses oracle now sent rest) := by
  constructor
  · intro oracle envs
    induction envs with
    | nil => intro sent; rfl
    | cons env rest ih =>
      intro sent
      simp only [mail_main_loop, List.length_cons]
      cases send_reminders oracle env sent <;> simp [ih]
  · intro oracle now sent r rest htgt
    simp [discordProcessClasses, discordProcessRow, htgt]

/-- Witness for C9 (amended): a tick containing a malformed row followed by
the scenario event evaluates exactly as the tick without the malformed
row. -/
theorem loop_survival_amended_witness :
    discordProcessClasses oracleOk 0 [] [badParseClass, scenarioClass] =
      discordProcessClasses oracleOk 0 [] [scenarioClass] :=
  loop_survival_amended.2 oracleOk 0 [] badParseClass [scenarioClass] rfl

/-! ## Ledger persistence round trip -/

theorem trimRightChars_append_newline (l : List Char) :
    trimRightChars (l ++ [ '\n' ]) = trimRightChars l := by
  unfold trimRightChars
  have hws : Char.isWhitespace '\n' = true := rfl
  rw [List.reverse_append]
  simp [List.dropWhile_cons, hws]

theorem stripChars_append_newline (l : List Char) :
    stripChars (l ++ [ '\n' ]) = stripChars l := by
  unfold stripChars
  rw [trimRightChars_append_newline]

theorem readlinesAux_append : ∀ k : List Char, '\n' ∉ k →
    ∀ rest acc : List Char,
    readlinesAux (k ++ '\n' :: rest) acc
      = (acc ++ (k ++ [ '\n' ])) :: readlinesAux rest []
  | [], _, rest, acc => by simp [readlinesAux]
  | c :: k, hk, rest, acc => by
    have hc : ¬(c = '\n') := fun h => hk (h ▸ List.mem_cons_self c k)
    simp only [List.cons_append, readlinesAux, if_neg hc]
    show readlinesAux (k ++ '\n' :: rest) (acc ++ [c])
      = (acc ++ c :: (k ++ [ '\n' ])) :: readlinesAux rest []
    rw [readlinesAux_append k (fun h => hk (List.mem_cons_of_mem c h)) rest (acc ++ [c])]
    simp

/-- C10. Persistence round trip of the Discord ledger: writing a set of
keys with `save_sent_log` (one key per line) and reading the file back with
`load_sent_log` (one stripped entry per line) returns exactly the keys
written, provided each key is non-empty, contains no newline and equals its
own whitespace-stripped form. The set is modelled by the list of its
iteration order; the round trip preserves it element by element. -/
theorem sent_log_roundtrip : ∀ keys : List (List Char),
    (∀ k ∈ keys, k ≠ [] ∧ '\n' ∉ k ∧ stripChars k = k) →
    load_sent_log (save_sent_log keys) = keys := by
  intro keys
  induction keys with
  | nil => intro _; rfl
  | cons k rest ih =>
    intro h
    obtain ⟨-, hnl, hstrip⟩ := h k (List.mem_cons_self k rest)
    have hrest : ∀ x ∈ rest, x ≠ [] ∧ '\n' ∉ x ∧ stripChars x = x :=
      fun x hx => h x (List.mem_cons_of_mem k hx)
    show load_sent_log (k ++ '\n' :: save_sent_log rest) = k :: rest
    unfold load_sent_log
    rw [readlinesAux_append k hnl (save_sent_log rest) []]
    simp only [List.map_cons, List.nil_append]
    rw [stripChars_append_newline, hstrip]
    have htail := ih hrest
    unfold load_sent_log at htail
    rw [htail]

/-- Witness for C10, at a concrete two-key ledger. -/
theorem sent_log_roundtrip_witness :
    load_sent_log (save_sent_log [[ 'a' ], [ 'b', 'c' ]]) = [[ 'a' ], [ 'b', 'c' ]] :=
  sent_log_roundtrip [[ 'a' ], [ 'b', 'c' ]] (by decide)
